import Mathlib

/-!
Verification development for the CONCORDIA-HARMONOGRAPH audio-reactive
physics engine.  JavaScript numbers are modelled by `ℚ` in the beat-detection
and modulation layer (all operations there are field operations and
comparisons, exact over `ℚ`), and by `ℝ` in the geometric layer
(`GravitySystem`), where `sqrt`, `cos` and `sin` occur.

Sources embedded here:
- `src/js/HarmonographRenderer.js`, class `AudioAnalyzer`
  (`detectBeat`, the multi-band beat section of `analyze`, `getAnalysis`);
- `src/js/GravitySystem.js`, class `GravitySystem`
  (`updateBody`, `createOrbitalBody`, `createPlanets`, `initialize`,
  `reset`, `gravitationalAcceleration`, `setMode`, `applyAudioModulation`);
- `src/unnamed/part_001`, class `HarmonographSystem` (`setPhysicsMode`);
- `src/js/Planet.js` (`setUsePhysics`).
-/

/-- p5.js `lerp(start, stop, amt) = start + (stop - start) * amt`. -/
def p5lerp (start stop amt : ℚ) : ℚ := start + (stop - start) * amt

/-- p5.js `map(value, start1, stop1, start2, stop2)` without bounds clamping
(the source never passes `withinBounds`). -/
def p5map (value start1 stop1 start2 stop2 : ℚ) : ℚ :=
  start2 + (stop2 - start2) * ((value - start1) / (stop1 - start1))

/-- p5.js `constrain(n, low, high) = max(min(n, high), low)`. -/
def p5constrain (n low high : ℚ) : ℚ := max (min n high) low

/-- JavaScript array indexing `l[i]`: `none` stands for `undefined`
(negative or out-of-range index). -/
def jsNth (l : List ℚ) (i : Int) : Option ℚ :=
  if i < 0 then none else l.get? i.toNat

/-- Mean of an energy history: `history.reduce((a, b) => a + b, 0) / history.length`
(`AudioAnalyzer.detectBeat`, src/js/HarmonographRenderer.js line 517). -/
def avgEnergyOf (history : List ℚ) : ℚ :=
  history.sum / (history.length : ℚ)

/-- The adaptive dynamic threshold of `AudioAnalyzer.detectBeat`
(src/js/HarmonographRenderer.js lines 521-527):
`adaptiveMultiplier = map(avgEnergy, 0, 1, sensitivity, sensitivity * 0.8)`,
`dynamicThreshold = min(avgEnergy * adaptiveMultiplier, 0.98)`. -/
def dynamicThresholdOf (history : List ℚ) (sensitivity : ℚ) : ℚ :=
  min (avgEnergyOf history * p5map (avgEnergyOf history) 0 1 sensitivity (sensitivity * (8/10)))
    (98/100)

/-- The rising-edge test of `AudioAnalyzer.detectBeat`
(src/js/HarmonographRenderer.js line 530):
`isRising = energy > history[history.length - 2]`.
In JavaScript, when `history.length < 2` the index is negative, the lookup
yields `undefined`, and `energy > undefined` is `false`; `jsNth` returning
`none` models exactly that. -/
def isRisingOf (energy : ℚ) (history : List ℚ) : Bool :=
  match jsNth history ((history.length : Int) - 2) with
  | some prev => decide (energy > prev)
  | none => false

/-- Result record of `AudioAnalyzer.detectBeat`
(src/js/HarmonographRenderer.js lines 542-548). -/
structure DetectResult where
  isBeat : Bool
  intensity : ℚ
  threshold : ℚ
  dynamicThreshold : ℚ
  avgEnergy : ℚ
  deriving DecidableEq, Repr

/-- Embedding of `AudioAnalyzer.detectBeat(energy, history, threshold,
lastBeatTime, cooldown, cutoff, decay, sensitivity, currentTime)`
(src/js/HarmonographRenderer.js lines 511-548).  The JS mutates `threshold`
sequentially (on fire `threshold = energy * 0.95`, then always
`threshold = max(threshold * decay, cutoff)`); the two branches here fold
that sequence: fire branch `max (energy * 0.95 * decay) cutoff`, no-fire
branch `max (threshold * decay) cutoff`.  On fire
`intensity = constrain(map(energy, threshold, 1, 0.5, 1), 0.5, 1)`,
otherwise `intensity` keeps its initial value `0`. -/
def detectBeat (energy : ℚ) (history : List ℚ)
    (threshold lastBeatTime cooldown cutoff decay sensitivity currentTime : ℚ) :
    DetectResult :=
  if energy > threshold ∧ energy > dynamicThresholdOf history sensitivity ∧
      isRisingOf energy history = true ∧ currentTime - lastBeatTime > cooldown then
    { isBeat := true
      intensity := p5constrain (p5map energy threshold 1 (1/2) 1) (1/2) 1
      threshold := max (energy * (95/100) * decay) cutoff
      dynamicThreshold := dynamicThresholdOf history sensitivity
      avgEnergy := avgEnergyOf history }
  else
    { isBeat := false
      intensity := 0
      threshold := max (threshold * decay) cutoff
      dynamicThreshold := dynamicThresholdOf history sensitivity
      avgEnergy := avgEnergyOf history }

/-- History update of `AudioAnalyzer.analyze`
(src/js/HarmonographRenderer.js lines 394-401): `history.push(energy)`
followed by `history.shift()`. -/
def pushShift (history : List ℚ) (energy : ℚ) : List ℚ :=
  (history ++ [energy]).tail

/-- One per-band step of `AudioAnalyzer.analyze`
(src/js/HarmonographRenderer.js lines 394-420): the new energy sample is
pushed (and the oldest shifted out) BEFORE `detectBeat` is called on the
same, already-updated history. -/
def bandStep (history : List ℚ)
    (energy threshold lastBeatTime cooldown cutoff decay sensitivity currentTime : ℚ) :
    List ℚ × DetectResult :=
  let h := pushShift history energy
  (h, detectBeat energy h threshold lastBeatTime cooldown cutoff decay sensitivity currentTime)

/-- Both branches of `detectBeat` report the same `avgEnergy`, the mean of
the history it was handed. -/
theorem detectBeat_avgEnergy (energy : ℚ) (history : List ℚ)
    (threshold lastBeatTime cooldown cutoff decay sensitivity currentTime : ℚ) :
    (detectBeat energy history threshold lastBeatTime cooldown cutoff decay
      sensitivity currentTime).avgEnergy = avgEnergyOf history := by
  simp only [detectBeat]
  split_ifs <;> rfl

/-- When no beat fires, the reported intensity is the initial `0`. -/
theorem detectBeat_intensity_of_no_beat (energy : ℚ) (history : List ℚ)
    (threshold lastBeatTime cooldown cutoff decay sensitivity currentTime : ℚ)
    (h : (detectBeat energy history threshold lastBeatTime cooldown cutoff decay
      sensitivity currentTime).isBeat = false) :
    (detectBeat energy history threshold lastBeatTime cooldown cutoff decay
      sensitivity currentTime).intensity = 0 := by
  revert h
  simp only [detectBeat]
  split_ifs
  · intro h; exact absurd h (by simp)
  · intro _; rfl

/-- C1: with a history of length at least 2, `detectBeat` raises `isBeat`
exactly when all four conditions hold — `energy > threshold` (the decaying
threshold), `energy > dynamicThreshold`, the sample is on a rising edge,
and `currentTime - lastBeatTime > cooldown`; in particular no beat is ever
reported when the time since the last beat is at most the cooldown. -/
theorem detectBeat_isBeat_iff (energy : ℚ) (history : List ℚ)
    (threshold lastBeatTime cooldown cutoff decay sensitivity currentTime : ℚ)
    (hlen : 2 ≤ history.length) :
    ((detectBeat energy history threshold lastBeatTime cooldown cutoff decay
        sensitivity currentTime).isBeat = true ↔
      (energy > threshold ∧ energy > dynamicThresholdOf history sensitivity ∧
        isRisingOf energy history = true ∧ currentTime - lastBeatTime > cooldown)) ∧
    (currentTime - lastBeatTime ≤ cooldown →
      (detectBeat energy history threshold lastBeatTime cooldown cutoff decay
        sensitivity currentTime).isBeat = false) := by
  simp only [detectBeat]
  split_ifs with h
  · exact ⟨by simp [h], fun hc => absurd h.2.2.2 (not_lt.mpr hc)⟩
  · exact ⟨by simp [h], fun _ => rfl⟩

/-- C1 witness: a concrete call (energy 1, history `[0, 1/2]`) on which the
equivalence is instantiated and the length hypothesis discharged. -/
theorem detectBeat_isBeat_iff_witness :
    ((detectBeat 1 [0, 1/2] (4/10) 0 200 (3/10) (95/100) (3/2) 1000).isBeat = true ↔
      ((1:ℚ) > 4/10 ∧ (1:ℚ) > dynamicThresholdOf [0, 1/2] (3/2) ∧
        isRisingOf 1 [0, 1/2] = true ∧ (1000:ℚ) - 0 > 200)) ∧
    ((1000:ℚ) - 0 ≤ 200 →
      (detectBeat 1 [0, 1/2] (4/10) 0 200 (3/10) (95/100) (3/2) 1000).isBeat = false) :=
  detectBeat_isBeat_iff 1 [0, 1/2] (4/10) 0 200 (3/10) (95/100) (3/2) 1000 (by decide)

/-- C2: the decaying threshold returned by `detectBeat` is always at least
the band's cutoff, and on any call on which no beat fires (with the band's
decay factor in `[0, 1]` and an incoming threshold at least the cutoff and
nonnegative, as holds for every band configuration) the returned threshold
does not exceed the incoming one — so over a beat-free stretch of calls the
threshold is monotonically non-increasing. -/
theorem detectBeat_threshold_floor_and_decay (energy : ℚ) (history : List ℚ)
    (threshold lastBeatTime cooldown cutoff decay sensitivity currentTime : ℚ)
    (hd0 : 0 ≤ decay) (hd1 : decay ≤ 1) (hct : cutoff ≤ threshold) (h0 : 0 ≤ threshold) :
    cutoff ≤ (detectBeat energy history threshold lastBeatTime cooldown cutoff decay
      sensitivity currentTime).threshold ∧
    ((detectBeat energy history threshold lastBeatTime cooldown cutoff decay
        sensitivity currentTime).isBeat = false →
      (detectBeat energy history threshold lastBeatTime cooldown cutoff decay
        sensitivity currentTime).threshold ≤ threshold) := by
  simp only [detectBeat]
  split_ifs with h
  · exact ⟨le_max_right _ _, fun hB => absurd hB (by simp)⟩
  · refine ⟨le_max_right _ _, fun _ => max_le ?_ hct⟩
    calc threshold * decay ≤ threshold * 1 := mul_le_mul_of_nonneg_left hd1 h0
    _ = threshold := mul_one _

/-- C2 witness: the bass band configuration (decay `0.95`, cutoff `0.3`)
with incoming threshold `0.4`, on a no-beat call. -/
theorem detectBeat_threshold_floor_and_decay_witness :
    (3:ℚ)/10 ≤ (detectBeat 0 [0, 0] (4/10) 0 200 (3/10) (95/100) (3/2) 1000).threshold ∧
    ((detectBeat 0 [0, 0] (4/10) 0 200 (3/10) (95/100) (3/2) 1000).isBeat = false →
      (detectBeat 0 [0, 0] (4/10) 0 200 (3/10) (95/100) (3/2) 1000).threshold ≤ 4/10) :=
  detectBeat_threshold_floor_and_decay 0 [0, 0] (4/10) 0 200 (3/10) (95/100) (3/2) 1000
    (by norm_num) (by norm_num) (by norm_num) (by norm_num)

/-- C3 counterexample: in `AudioAnalyzer.analyze` the new sample is pushed
onto the history BEFORE `detectBeat` runs, so `avgEnergy` includes the new
sample.  With stored history `[0, 0, 0]` and new energy `1`, the detector
reports `avgEnergy = 1/3`, while the mean of the previous samples is `0` —
the new sample does influence its own comparison baseline. -/
theorem bandStep_avgEnergy_cex :
    ((bandStep [0, 0, 0] 1 (4/10) 0 200 (3/10) (95/100) (3/2) 1000).2).avgEnergy = 1/3 ∧
    avgEnergyOf [0, 0, 0] = 0 ∧ ((1:ℚ)/3 ≠ 0) := by
  refine ⟨?_, by norm_num [avgEnergyOf], by norm_num⟩
  rw [bandStep]
  norm_num [pushShift, detectBeat_avgEnergy, avgEnergyOf]

/-- C3 amended: on every per-band analyze step with nonempty stored history,
`avgEnergy` is the mean of the UPDATED window — the previous samples minus
the evicted oldest one, plus the just-pushed new sample — i.e.
`(history.tail.sum + energy) / N` where `N` is the (unchanged) window
length, not the mean of the previous `N` samples. -/
theorem bandStep_avgEnergy_includes_current (history : List ℚ)
    (energy threshold lastBeatTime cooldown cutoff decay sensitivity currentTime : ℚ)
    (hne : history ≠ []) :
    ((bandStep history energy threshold lastBeatTime cooldown cutoff decay sensitivity
        currentTime).2).avgEnergy = (history.tail.sum + energy) / (history.length : ℚ) := by
  obtain ⟨a, t, rfl⟩ := List.exists_cons_of_ne_nil hne
  simp [bandStep, pushShift, detectBeat_avgEnergy, avgEnergyOf]

/-- C3 amended witness: concrete step with history `[0, 0, 0]` and energy 1. -/
theorem bandStep_avgEnergy_includes_current_witness :
    ((bandStep [0, 0, 0] 1 (4/10) 0 200 (3/10) (95/100) (3/2) 1000).2).avgEnergy
      = (([ (0:ℚ), 0, 0 ].tail.sum + 1) / (([(0:ℚ), 0, 0].length : ℚ))) :=
  bandStep_avgEnergy_includes_current [0, 0, 0] 1 (4/10) 0 200 (3/10) (95/100) (3/2) 1000
    (by decide)

/-- C9 counterexample: called with the length-1 history `[1/2]` and an
energy that clears every other condition (above both thresholds, cooldown
long elapsed), `detectBeat` neither asserts nor fails: it silently treats
the rising-edge comparison against the missing previous sample as false
(JavaScript `energy > undefined`) and returns a perfectly normal result
with `isBeat = false` and a decayed threshold. -/
theorem detectBeat_short_history_cex :
    (detectBeat 1 [1/2] (4/10) 0 200 (3/10) (95/100) (3/2) 1000).isBeat = false ∧
    (detectBeat 1 [1/2] (4/10) 0 200 (3/10) (95/100) (3/2) 1000).intensity = 0 ∧
    (detectBeat 1 [1/2] (4/10) 0 200 (3/10) (95/100) (3/2) 1000).threshold
      = max ((4/10) * (95/100)) (3/10) ∧
    (1:ℚ) > 4/10 ∧ (1:ℚ) > dynamicThresholdOf [1/2] (3/2) ∧ (1000:ℚ) - 0 > 200 ∧
    ([(1:ℚ)/2].length < 2) := by
  have hr : isRisingOf 1 [1/2] = false := rfl
  have hcond : ¬((1:ℚ) > 4/10 ∧ (1:ℚ) > dynamicThresholdOf [1/2] (3/2) ∧
      isRisingOf 1 [1/2] = true ∧ (1000:ℚ) - 0 > 200) :=
    fun h => absurd h.2.2.1 (by rw [hr]; simp)
  have hres : detectBeat 1 [1/2] (4/10) 0 200 (3/10) (95/100) (3/2) 1000 =
      { isBeat := false, intensity := 0, threshold := max ((4/10) * (95/100)) (3/10),
        dynamicThreshold := dynamicThresholdOf [1/2] (3/2), avgEnergy := avgEnergyOf [1/2] } := by
    unfold detectBeat
    rw [if_neg hcond]
  refine ⟨by rw [hres], by rw [hres], by rw [hres], by norm_num, ?_, by norm_num, by decide⟩
  norm_num [dynamicThresholdOf, avgEnergyOf, p5map, min_def]

/-- C9 amended: with a history shorter than 2 samples the detector does not
fail fast; the rising-edge comparison (against the `undefined` yielded by
the out-of-range index) is false, so a normal result with `isBeat = false`
is returned, regardless of the energy value. -/
theorem detectBeat_short_history_no_beat (energy : ℚ) (history : List ℚ)
    (threshold lastBeatTime cooldown cutoff decay sensitivity currentTime : ℚ)
    (hlen : history.length < 2) :
    (detectBeat energy history threshold lastBeatTime cooldown cutoff decay
      sensitivity currentTime).isBeat = false := by
  have hr : isRisingOf energy history = false := by
    rcases history with _ | ⟨a, _ | ⟨b, t⟩⟩
    · rfl
    · rfl
    · exfalso
      simp only [List.length_cons] at hlen
      omega
  simp [detectBeat, hr]

/-- C9 amended witness: the concrete length-1 history call. -/
theorem detectBeat_short_history_no_beat_witness :
    (detectBeat 1 [1/2] (4/10) 0 200 (3/10) (95/100) (3/2) 1000).isBeat = false :=
  detectBeat_short_history_no_beat 1 [1/2] (4/10) 0 200 (3/10) (95/100) (3/2) 1000
    (by decide)

/-- Bass band configuration of `AudioAnalyzer` (src/js/HarmonographRenderer.js
lines 254-257): cooldown 200 ms, cutoff 0.3, decay 0.95, sensitivity 1.5. -/
def bassCooldown : ℚ := 200
def bassCutoff : ℚ := 3/10
def bassDecay : ℚ := 95/100
def bassSensitivity : ℚ := 3/2
def bassPulseStrength : ℚ := 8/100
def bassPulseDecay : ℚ := 92/100

/-- Mid band configuration (lines 263-266): 150 ms, 0.25, 0.93, 1.4. -/
def midCooldown : ℚ := 150
def midCutoff : ℚ := 1/4
def midDecay : ℚ := 93/100
def midSensitivity : ℚ := 7/5
def midPulseStrength : ℚ := 5/100
def midPulseDecay : ℚ := 9/10

/-- Treble band configuration (lines 272-275): 100 ms, 0.2, 0.9, 1.3. -/
def trebleCooldown : ℚ := 100
def trebleCutoff : ℚ := 1/5
def trebleDecay : ℚ := 9/10
def trebleSensitivity : ℚ := 13/10
def treblePulseStrength : ℚ := 3/100
def treblePulseDecay : ℚ := 85/100

/-- Legacy combined pulse configuration (lines 322-324). -/
def pulseStrength : ℚ := 8/100
def pulseDecay : ℚ := 92/100

/-- The pulse snap of `AudioAnalyzer.analyze` (lines 492-495):
`if (abs(p - 1.0) < 0.001) p = 1.0`. -/
def snapPulse (p : ℚ) : ℚ := if |p - 1| < 1/1000 then 1 else p

/-- The beat-detection state of `AudioAnalyzer`: histories, per-band
decaying thresholds, last-beat timestamps, beat flags and intensities,
pulse envelopes, and the legacy aggregate beat fields.  Fields of the
class that play no part in beat detection (volume, spectral centroid,
smoothed band energies, tension flags) are outside the model. -/
structure AnalyzerState where
  bassHistory : List ℚ
  midHistory : List ℚ
  trebleHistory : List ℚ
  bassThreshold : ℚ
  midThreshold : ℚ
  trebleThreshold : ℚ
  bassLastBeatTime : ℚ
  midLastBeatTime : ℚ
  trebleLastBeatTime : ℚ
  bassBeat : Bool
  midBeat : Bool
  trebleBeat : Bool
  bassBeatIntensity : ℚ
  midBeatIntensity : ℚ
  trebleBeatIntensity : ℚ
  bassPulseAmount : ℚ
  midPulseAmount : ℚ
  treblePulseAmount : ℚ
  isBeat : Bool
  beatIntensity : ℚ
  beatThreshold : ℚ
  lastBeatTime : ℚ
  pulseAmount : ℚ

/-- The multi-band beat-detection section of `AudioAnalyzer.analyze`
(src/js/HarmonographRenderer.js lines 393-495), given this frame's band
energies and `millis()` time: each band history is pushed/shifted, each
band runs `detectBeat` on the updated history, the per-band fields are
written back, the legacy aggregate fields mirror the bass result
(`this.isBeat = this.bassBeat`, `this.beatIntensity = this.bassBeatIntensity`,
`this.beatThreshold = this.bassThreshold`, lines 474-480), and all pulse
envelopes are decayed by `lerp(p, 1.0, 1 - decay)` and snapped. -/
def analyzeBeats (s : AnalyzerState) (bass mid treble currentTime : ℚ) : AnalyzerState :=
  let bassHistory := pushShift s.bassHistory bass
  let midHistory := pushShift s.midHistory mid
  let trebleHistory := pushShift s.trebleHistory treble
  let bassResult := detectBeat bass bassHistory s.bassThreshold s.bassLastBeatTime
    bassCooldown bassCutoff bassDecay bassSensitivity currentTime
  let midResult := detectBeat mid midHistory s.midThreshold s.midLastBeatTime
    midCooldown midCutoff midDecay midSensitivity currentTime
  let trebleResult := detectBeat treble trebleHistory s.trebleThreshold s.trebleLastBeatTime
    trebleCooldown trebleCutoff trebleDecay trebleSensitivity currentTime
  let bassPulse0 := if bassResult.isBeat then 1 + bassPulseStrength * bassResult.intensity
    else s.bassPulseAmount
  let midPulse0 := if midResult.isBeat then 1 + midPulseStrength * midResult.intensity
    else s.midPulseAmount
  let treblePulse0 := if trebleResult.isBeat then 1 + treblePulseStrength * trebleResult.intensity
    else s.treblePulseAmount
  let pulse0 := if bassResult.isBeat then 1 + pulseStrength * bassResult.intensity
    else s.pulseAmount
  { bassHistory := bassHistory
    midHistory := midHistory
    trebleHistory := trebleHistory
    bassThreshold := bassResult.threshold
    midThreshold := midResult.threshold
    trebleThreshold := trebleResult.threshold
    bassLastBeatTime := if bassResult.isBeat then currentTime else s.bassLastBeatTime
    midLastBeatTime := if midResult.isBeat then currentTime else s.midLastBeatTime
    trebleLastBeatTime := if trebleResult.isBeat then currentTime else s.trebleLastBeatTime
    bassBeat := bassResult.isBeat
    midBeat := midResult.isBeat
    trebleBeat := trebleResult.isBeat
    bassBeatIntensity := bassResult.intensity
    midBeatIntensity := midResult.intensity
    trebleBeatIntensity := trebleResult.intensity
    bassPulseAmount := snapPulse (p5lerp bassPulse0 1 (1 - bassPulseDecay))
    midPulseAmount := snapPulse (p5lerp midPulse0 1 (1 - midPulseDecay))
    treblePulseAmount := snapPulse (p5lerp treblePulse0 1 (1 - treblePulseDecay))
    isBeat := bassResult.isBeat
    beatIntensity := bassResult.intensity
    beatThreshold := bassResult.threshold
    lastBeatTime := if bassResult.isBeat then currentTime else s.lastBeatTime
    pulseAmount := snapPulse (p5lerp pulse0 1 (1 - pulseDecay)) }

/-- The slice of `AudioAnalyzer.getAnalysis()`
(src/js/HarmonographRenderer.js lines 592-635) read by
`GravitySystem.applyAudioModulation`:  `smoothedBass`, `mid`,
`isBeat: this.isBeat`, `beatIntensity: this.beatIntensity`. -/
structure Analysis where
  smoothedBass : ℚ
  mid : ℚ
  isBeat : Bool
  beatIntensity : ℚ

/-- Construction of the analysis slice from the analyzer state (the
smoothed values are separate analyzer fields, passed through here). -/
def getAnalysisSlice (s : AnalyzerState) (smoothedBass mid : ℚ) : Analysis :=
  { smoothedBass := smoothedBass
    mid := mid
    isBeat := s.isBeat
    beatIntensity := s.beatIntensity }

/-- The `audioModulation` record of `GravitySystem`
(src/js/GravitySystem.js lines 27-32). -/
structure AudioModulationState where
  bassMultiplier : ℚ
  midMultiplier : ℚ
  trebleMultiplier : ℚ
  beatPulse : ℚ

/-- The mode/modulation slice of `GravitySystem` state: `mode`, `timeScale`
and `audioModulation`, plus the planet list, carried as an opaque type `B`
because none of the operations modelled here read or write body kinematic
state (positions and velocities live inside `B`). -/
structure GravityModState (B : Type) where
  mode : String
  timeScale : ℚ
  audioModulation : AudioModulationState
  planets : List B

/-- Embedding of `GravitySystem.setMode(mode)` (src/js/GravitySystem.js
lines 342-351): stores the mode and, only when the mode is the string
`"scientific"`, resets `bassMultiplier`, `midMultiplier`, `beatPulse` and
`timeScale` (the `trebleMultiplier` is not reset even then). -/
def GravityModState.setMode {B : Type} (g : GravityModState B) (mode : String) :
    GravityModState B :=
  if mode = "scientific" then
    { g with
      mode := mode
      timeScale := 1
      audioModulation := { g.audioModulation with
        bassMultiplier := 1, midMultiplier := 1, beatPulse := 0 } }
  else
    { g with mode := mode }

/-- Embedding of `GravitySystem.applyAudioModulation(analysis)`
(src/js/GravitySystem.js lines 322-336): bass drives the sun's GM
multiplier, mid drives `timeScale`, a beat loads `beatPulse` with the beat
intensity and otherwise `beatPulse` decays by `0.9`. -/
def GravityModState.applyAudioModulation {B : Type} (g : GravityModState B)
    (analysis : Analysis) : GravityModState B :=
  { g with
    timeScale := 1 + analysis.mid * (3/10)
    audioModulation := { g.audioModulation with
      bassMultiplier := 1 + analysis.smoothedBass * (1/2)
      midMultiplier := 1 + analysis.mid * (3/10)
      beatPulse := if analysis.isBeat then analysis.beatIntensity
        else g.audioModulation.beatPulse * (9/10) } }

/-- The slice of the renderer-side `Planet` object touched by
`setUsePhysics` (src/js/Planet.js lines 60-63), together with its
legacy-orbit kinematic fields. -/
structure PlanetW where
  usePhysics : Bool
  angle : ℚ
  radius : ℚ

/-- Embedding of `Planet.setUsePhysics(usePhysics)`: writes only the flag. -/
def PlanetW.setUsePhysics (p : PlanetW) (u : Bool) : PlanetW :=
  { p with usePhysics := u }

/-- The slice of `HarmonographSystem` state relevant to mode switching:
`physicsMode`, the wrapper planets, and the owned gravity system. -/
structure HarmonographState (B : Type) where
  physicsMode : String
  planets : List PlanetW
  gravitySystem : GravityModState B

/-- Embedding of `HarmonographSystem.setPhysicsMode(mode)`
(src/unnamed/part_001 lines 176-191): accepts only `"legacy"` and
`"reactive"`; sets `physicsMode`, flips every planet's `usePhysics` flag,
and calls `gravitySystem.setMode('reactive')` ONLY when switching to
reactive — switching to legacy never calls `gravitySystem.setMode` at all. -/
def HarmonographState.setPhysicsMode {B : Type} (h : HarmonographState B)
    (mode : String) : HarmonographState B :=
  if mode = "legacy" ∨ mode = "reactive" then
    let h1 := { h with
      physicsMode := mode
      planets := h.planets.map (fun p => p.setUsePhysics (mode == "reactive")) }
    if mode = "reactive" then
      { h1 with gravitySystem := h1.gravitySystem.setMode "reactive" }
    else h1
  else h

/-- C10: after every analyzer frame the aggregate beat fields mirror the
bass band exactly (`isBeat = bassBeat`, `beatIntensity =
bassBeatIntensity`); every band that fired no beat reports intensity
exactly `0`; and the gravity system's beat-pulse modulation, fed the
analysis snapshot of that frame, loads the pulse from the bass beat alone
and decays it by `0.9` on bass-beat-free frames. -/
theorem analyzeBeats_aggregate_mirrors_bass (s : AnalyzerState)
    (bass mid treble currentTime : ℚ) :
    (analyzeBeats s bass mid treble currentTime).isBeat
      = (analyzeBeats s bass mid treble currentTime).bassBeat ∧
    (analyzeBeats s bass mid treble currentTime).beatIntensity
      = (analyzeBeats s bass mid treble currentTime).bassBeatIntensity ∧
    ((analyzeBeats s bass mid treble currentTime).bassBeat = false →
      (analyzeBeats s bass mid treble currentTime).bassBeatIntensity = 0) ∧
    ((analyzeBeats s bass mid treble currentTime).midBeat = false →
      (analyzeBeats s bass mid treble currentTime).midBeatIntensity = 0) ∧
    ((analyzeBeats s bass mid treble currentTime).trebleBeat = false →
      (analyzeBeats s bass mid treble currentTime).trebleBeatIntensity = 0) ∧
    (∀ (B : Type) (g : GravityModState B) (smoothedBass midSm : ℚ),
      (g.applyAudioModulation (getAnalysisSlice
          (analyzeBeats s bass mid treble currentTime) smoothedBass midSm)
        ).audioModulation.beatPulse
        = if (analyzeBeats s bass mid treble currentTime).bassBeat = true
          then (analyzeBeats s bass mid treble currentTime).bassBeatIntensity
          else g.audioModulation.beatPulse * (9/10)) := by
  refine ⟨rfl, rfl, ?_, ?_, ?_, ?_⟩
  · exact fun h => detectBeat_intensity_of_no_beat bass (pushShift s.bassHistory bass)
      s.bassThreshold s.bassLastBeatTime bassCooldown bassCutoff bassDecay
      bassSensitivity currentTime h
  · exact fun h => detectBeat_intensity_of_no_beat mid (pushShift s.midHistory mid)
      s.midThreshold s.midLastBeatTime midCooldown midCutoff midDecay
      midSensitivity currentTime h
  · exact fun h => detectBeat_intensity_of_no_beat treble (pushShift s.trebleHistory treble)
      s.trebleThreshold s.trebleLastBeatTime trebleCooldown trebleCutoff trebleDecay
      trebleSensitivity currentTime h
  · intro B g smoothedBass midSm
    rfl

/-- All-zero analyzer start state (as built by the `AudioAnalyzer`
constructor, with the initial thresholds 0.4/0.35/0.3 and histories of
zeros, here of length 3 for concreteness). -/
def analyzerStart : AnalyzerState :=
  { bassHistory := [0, 0, 0]
    midHistory := [0, 0, 0]
    trebleHistory := [0, 0, 0]
    bassThreshold := 4/10
    midThreshold := 35/100
    trebleThreshold := 3/10
    bassLastBeatTime := 0
    midLastBeatTime := 0
    trebleLastBeatTime := 0
    bassBeat := false
    midBeat := false
    trebleBeat := false
    bassBeatIntensity := 0
    midBeatIntensity := 0
    trebleBeatIntensity := 0
    bassPulseAmount := 1
    midPulseAmount := 1
    treblePulseAmount := 1
    isBeat := false
    beatIntensity := 0
    beatThreshold := 4/10
    lastBeatTime := 0
    pulseAmount := 1 }

/-- C10 witness: the mirror and zero-intensity facts instantiated on the
all-zero start state with silent input at time 0. -/
theorem analyzeBeats_aggregate_mirrors_bass_witness :
    (analyzeBeats analyzerStart 0 0 0 0).isBeat
      = (analyzeBeats analyzerStart 0 0 0 0).bassBeat ∧
    ((analyzeBeats analyzerStart 0 0 0 0).bassBeat = false →
      (analyzeBeats analyzerStart 0 0 0 0).bassBeatIntensity = 0) :=
  ⟨(analyzeBeats_aggregate_mirrors_bass analyzerStart 0 0 0 0).1,
    (analyzeBeats_aggregate_mirrors_bass analyzerStart 0 0 0 0).2.2.1⟩

/-- Gravity-system modulation state in reactive mode with in-flight,
non-neutral modulation values (as after loud audio frames). -/
def gmReactive : GravityModState Unit :=
  { mode := "reactive"
    timeScale := 7/5
    audioModulation :=
      { bassMultiplier := 6/5, midMultiplier := 7/5, trebleMultiplier := 1, beatPulse := 1/2 }
    planets := [] }

/-- Harmonograph system currently in reactive mode owning `gmReactive`. -/
def hsReactive : HarmonographState Unit :=
  { physicsMode := "reactive", planets := [], gravitySystem := gmReactive }

/-- C7: switching the physics mode to `"legacy"` does NOT reset the audio
modulation to neutral.  `setPhysicsMode('legacy')` never calls
`gravitySystem.setMode`, and `GravitySystem.setMode` only resets on the
string `"scientific"`, a mode name no caller ever passes (the source notes
the mode was renamed: "NOTE: 'scientific' mode removed").  Starting from
in-flight modulation `beatPulse = 1/2`, `bassMultiplier = 6/5`,
`timeScale = 7/5`, the switch to legacy leaves every one of them
unchanged and non-neutral, while a (dead) `setMode("scientific")` call
would have reset them. -/
theorem setPhysicsMode_legacy_keeps_modulation :
    (hsReactive.setPhysicsMode "legacy").physicsMode = "legacy" ∧
    (hsReactive.setPhysicsMode "legacy").gravitySystem.audioModulation.beatPulse = 1/2 ∧
    (hsReactive.setPhysicsMode "legacy").gravitySystem.audioModulation.bassMultiplier = 6/5 ∧
    (hsReactive.setPhysicsMode "legacy").gravitySystem.timeScale = 7/5 ∧
    (hsReactive.setPhysicsMode "legacy").gravitySystem.mode = "reactive" ∧
    ((1:ℚ)/2 ≠ 0) ∧
    (gmReactive.setMode "scientific").audioModulation.beatPulse = 0 ∧
    (gmReactive.setMode "scientific").timeScale = 1 := by
  refine ⟨?_, ?_, ?_, ?_, ?_, by norm_num, ?_, ?_⟩ <;>
    simp [HarmonographState.setPhysicsMode, GravityModState.setMode, hsReactive, gmReactive]

/-- The `CelestialBody` record (src/js/GravitySystem.js lines 390-430),
parametric in the number type: instantiated at `ℝ` for the geometric
layer.  `maxTrailLength = 0` models the JS `undefined`/falsy case in
`body.maxTrailLength || this.maxTrailLength`. -/
structure CelestialBody (α : Type) where
  name : String
  mass : α
  radius : α
  x : α
  y : α
  vx : α
  vy : α
  isFixed : Bool
  isComet : Bool
  trail : List (α × α)
  maxTrailLength : ℕ

/-- Embedding of `GravitySystem.updateBody(body, dt)`
(src/js/GravitySystem.js lines 237-260).  `accel` stands for
`this.calculateAcceleration(body)` as a function of the body's position —
the only body field it reads besides the per-body constants, with the rest
of the system state fixed during the step.  A fixed body returns
immediately (before even the trail push); otherwise the trail is pushed
and truncated from the front, and the state advances by velocity-Verlet
exactly as in the source: `x += vx*dt + 0.5*ax*dt*dt`, recompute
acceleration at the new position, `vx += 0.5*(ax + newAx)*dt`. -/
def updateBody {α : Type} [Field α] (accel : α → α → α × α) (maxTrailDefault : ℕ)
    (body : CelestialBody α) (dt : α) : CelestialBody α :=
  if body.isFixed then body else
    let mt := if body.maxTrailLength = 0 then maxTrailDefault else body.maxTrailLength
    let trail0 := body.trail ++ [(body.x, body.y)]
    let trail := trail0.drop (trail0.length - mt)
    let acc := accel body.x body.y
    let x := body.x + body.vx * dt + (1/2) * acc.1 * dt * dt
    let y := body.y + body.vy * dt + (1/2) * acc.2 * dt * dt
    let newAcc := accel x y
    let vx := body.vx + (1/2) * (acc.1 + newAcc.1) * dt
    let vy := body.vy + (1/2) * (acc.2 + newAcc.2) * dt
    { body with x := x, y := y, vx := vx, vy := vy, trail := trail }

/-- C4: one `updateBody` step on a non-fixed body is velocity-Verlet —
the position advances by `v*dt + (1/2)*a*dt^2` with `a` the acceleration
at the old position, and the velocity advances by `(1/2)*(a + a')*dt`
where `a'` is the acceleration recomputed at the NEW position; a fixed
body (the sun) is returned completely unchanged. -/
theorem updateBody_verlet {α : Type} [Field α] (accel : α → α → α × α)
    (maxTrailDefault : ℕ) (body : CelestialBody α) (dt : α) :
    (body.isFixed = false →
      (updateBody accel maxTrailDefault body dt).x
          = body.x + body.vx * dt + (1/2) * (accel body.x body.y).1 * dt ^ 2 ∧
      (updateBody accel maxTrailDefault body dt).y
          = body.y + body.vy * dt + (1/2) * (accel body.x body.y).2 * dt ^ 2 ∧
      (updateBody accel maxTrailDefault body dt).vx
          = body.vx + (1/2) * ((accel body.x body.y).1
              + (accel (updateBody accel maxTrailDefault body dt).x
                  (updateBody accel maxTrailDefault body dt).y).1) * dt ∧
      (updateBody accel maxTrailDefault body dt).vy
          = body.vy + (1/2) * ((accel body.x body.y).2
              + (accel (updateBody accel maxTrailDefault body dt).x
                  (updateBody accel maxTrailDefault body dt).y).2) * dt) ∧
    (body.isFixed = true → updateBody accel maxTrailDefault body dt = body) := by
  cases hb : body.isFixed
  case true =>
    refine ⟨fun h => absurd h (by simp), fun _ => ?_⟩
    unfold updateBody
    rw [hb]
    rfl
  case false =>
    have hx : (updateBody accel maxTrailDefault body dt).x
        = body.x + body.vx * dt + (1/2) * (accel body.x body.y).1 * dt * dt := by
      unfold updateBody
      rw [hb]
      rfl
    have hy : (updateBody accel maxTrailDefault body dt).y
        = body.y + body.vy * dt + (1/2) * (accel body.x body.y).2 * dt * dt := by
      unfold updateBody
      rw [hb]
      rfl
    have hvx : (updateBody accel maxTrailDefault body dt).vx
        = body.vx + (1/2) * ((accel body.x body.y).1
          + (accel (body.x + body.vx * dt + (1/2) * (accel body.x body.y).1 * dt * dt)
              (body.y + body.vy * dt + (1/2) * (accel body.x body.y).2 * dt * dt)).1) * dt := by
      unfold updateBody
      rw [hb]
      rfl
    have hvy : (updateBody accel maxTrailDefault body dt).vy
        = body.vy + (1/2) * ((accel body.x body.y).2
          + (accel (body.x + body.vx * dt + (1/2) * (accel body.x body.y).1 * dt * dt)
              (body.y + body.vy * dt + (1/2) * (accel body.x body.y).2 * dt * dt)).2) * dt := by
      unfold updateBody
      rw [hb]
      rfl
    refine ⟨fun _ => ⟨?_, ?_, ?_, ?_⟩, fun h => absurd h (by simp)⟩
    · rw [hx]; ring
    · rw [hy]; ring
    · rw [hvx, hx, hy]
    · rw [hvy, hx, hy]

/-- Non-fixed test body for the C4 witness. -/
def cometTest : CelestialBody ℚ :=
  { name := "Comet", mass := 2, radius := 2, x := 3, y := 4, vx := 1, vy := 0,
    isFixed := false, isComet := true, trail := [], maxTrailLength := 30 }

/-- Fixed test body (the sun) for the C4 witness. -/
def sunTest : CelestialBody ℚ :=
  { name := "Sun", mass := 10000, radius := 20, x := 0, y := 0, vx := 0, vy := 0,
    isFixed := true, isComet := false, trail := [], maxTrailLength := 0 }

/-- Concrete acceleration field for the C4 witness. -/
def accelTest : ℚ → ℚ → ℚ × ℚ := fun x y => (x + y, x - y)

/-- C4 witness: the Verlet position update on a concrete non-fixed body,
and invariance of a concrete fixed body, with the `isFixed` hypotheses
discharged definitionally. -/
theorem updateBody_verlet_witness :
    (updateBody accelTest 100 cometTest 1).x
      = cometTest.x + cometTest.vx * 1 + (1/2) * (accelTest cometTest.x cometTest.y).1 * 1 ^ 2 ∧
    updateBody accelTest 100 sunTest 1 = sunTest :=
  ⟨((updateBody_verlet accelTest 100 cometTest 1).1 rfl).1,
    (updateBody_verlet accelTest 100 sunTest 1).2 rfl⟩

/-- The planet configuration record passed to
`GravitySystem.createOrbitalBody` (src/js/GravitySystem.js lines 74-110). -/
structure OrbitConfig where
  name : String
  mass : ℝ
  radius : ℝ
  semiMajorAxis : ℝ
  eccentricity : ℝ
  startAngle : ℝ

/-- Embedding of `GravitySystem.createOrbitalBody(config)`
(src/js/GravitySystem.js lines 119-153): perihelion distance
`r = a*(1-e)` with `a = config.semiMajorAxis * screenScale`, position at
`startAngle`, speed from the vis-viva relation
`v = sqrt(GM*(2/r - 1/a))` with `GM = G * sun.mass`, directed at
`startAngle + HALF_PI`. -/
noncomputable def createOrbitalBody (G sunMass centerX centerY screenScale : ℝ)
    (config : OrbitConfig) : CelestialBody ℝ :=
  let a := config.semiMajorAxis * screenScale
  let e := config.eccentricity
  let rPerihelion := a * (1 - e)
  let angle := config.startAngle
  let x := centerX + rPerihelion * Real.cos angle
  let y := centerY + rPerihelion * Real.sin angle
  let GM := G * sunMass
  let vPerihelion := Real.sqrt (GM * (2 / rPerihelion - 1 / a))
  let vAngle := angle + Real.pi / 2
  { name := config.name, mass := config.mass, radius := config.radius,
    x := x, y := y,
    vx := vPerihelion * Real.cos vAngle, vy := vPerihelion * Real.sin vAngle,
    isFixed := false, isComet := false, trail := [], maxTrailLength := 0 }

/-- C5: `createOrbitalBody` places the planet at distance `r = a*(1-e)`
from the center at angle `startAngle`, and (whenever the vis-viva radicand
is nonnegative, as it is for every bound orbit) gives it squared speed
`GM*(2/r - 1/a)` directed along angle `startAngle + 90°`, hence
perpendicular to the radius vector. -/
theorem createOrbitalBody_visviva (G sunMass centerX centerY screenScale : ℝ)
    (config : OrbitConfig)
    (h : 0 ≤ G * sunMass *
      (2 / (config.semiMajorAxis * screenScale * (1 - config.eccentricity))
        - 1 / (config.semiMajorAxis * screenScale))) :
    ((createOrbitalBody G sunMass centerX centerY screenScale config).x
        = centerX + config.semiMajorAxis * screenScale * (1 - config.eccentricity)
            * Real.cos config.startAngle ∧
      (createOrbitalBody G sunMass centerX centerY screenScale config).y
        = centerY + config.semiMajorAxis * screenScale * (1 - config.eccentricity)
            * Real.sin config.startAngle) ∧
    (((createOrbitalBody G sunMass centerX centerY screenScale config).x - centerX) ^ 2
        + ((createOrbitalBody G sunMass centerX centerY screenScale config).y - centerY) ^ 2
      = (config.semiMajorAxis * screenScale * (1 - config.eccentricity)) ^ 2) ∧
    ((createOrbitalBody G sunMass centerX centerY screenScale config).vx ^ 2
        + (createOrbitalBody G sunMass centerX centerY screenScale config).vy ^ 2
      = G * sunMass *
        (2 / (config.semiMajorAxis * screenScale * (1 - config.eccentricity))
          - 1 / (config.semiMajorAxis * screenScale))) ∧
    ((createOrbitalBody G sunMass centerX centerY screenScale config).vx
      = Real.sqrt (G * sunMass *
          (2 / (config.semiMajorAxis * screenScale * (1 - config.eccentricity))
            - 1 / (config.semiMajorAxis * screenScale)))
        * Real.cos (config.startAngle + Real.pi / 2)) ∧
    ((createOrbitalBody G sunMass centerX centerY screenScale config).vy
      = Real.sqrt (G * sunMass *
          (2 / (config.semiMajorAxis * screenScale * (1 - config.eccentricity))
            - 1 / (config.semiMajorAxis * screenScale)))
        * Real.sin (config.startAngle + Real.pi / 2)) ∧
    (((createOrbitalBody G sunMass centerX centerY screenScale config).x - centerX)
        * (createOrbitalBody G sunMass centerX centerY screenScale config).vx
      + ((createOrbitalBody G sunMass centerX centerY screenScale config).y - centerY)
        * (createOrbitalBody G sunMass centerX centerY screenScale config).vy = 0) := by
  refine ⟨⟨rfl, rfl⟩, ?_, ?_, rfl, rfl, ?_⟩
  · have : ((createOrbitalBody G sunMass centerX centerY screenScale config).x - centerX) ^ 2
        + ((createOrbitalBody G sunMass centerX centerY screenScale config).y - centerY) ^ 2
        = (config.semiMajorAxis * screenScale * (1 - config.eccentricity)) ^ 2
          * (Real.cos config.startAngle ^ 2 + Real.sin config.startAngle ^ 2) := by
      show (centerX + config.semiMajorAxis * screenScale * (1 - config.eccentricity)
          * Real.cos config.startAngle - centerX) ^ 2
        + (centerY + config.semiMajorAxis * screenScale * (1 - config.eccentricity)
          * Real.sin config.startAngle - centerY) ^ 2 = _
      ring
    rw [this, Real.cos_sq_add_sin_sq, mul_one]
  · have hsq : (Real.sqrt (G * sunMass *
        (2 / (config.semiMajorAxis * screenScale * (1 - config.eccentricity))
          - 1 / (config.semiMajorAxis * screenScale)))) ^ 2
        = G * sunMass *
          (2 / (config.semiMajorAxis * screenScale * (1 - config.eccentricity))
            - 1 / (config.semiMajorAxis * screenScale)) := Real.sq_sqrt h
    have : (createOrbitalBody G sunMass centerX centerY screenScale config).vx ^ 2
        + (createOrbitalBody G sunMass centerX centerY screenScale config).vy ^ 2
        = (Real.sqrt (G * sunMass *
            (2 / (config.semiMajorAxis * screenScale * (1 - config.eccentricity))
              - 1 / (config.semiMajorAxis * screenScale)))) ^ 2
          * (Real.cos (config.startAngle + Real.pi / 2) ^ 2
            + Real.sin (config.startAngle + Real.pi / 2) ^ 2) := by
      show (Real.sqrt _ * Real.cos (config.startAngle + Real.pi / 2)) ^ 2
        + (Real.sqrt _ * Real.sin (config.startAngle + Real.pi / 2)) ^ 2 = _
      ring
    rw [this, Real.cos_sq_add_sin_sq, mul_one, hsq]
  · have hcs : Real.cos config.startAngle * Real.cos (config.startAngle + Real.pi / 2)
        + Real.sin config.startAngle * Real.sin (config.startAngle + Real.pi / 2) = 0 := by
      rw [← Real.cos_sub]
      have : config.startAngle - (config.startAngle + Real.pi / 2) = -(Real.pi / 2) := by ring
      rw [this, Real.cos_neg, Real.cos_pi_div_two]
    have hshape : ((createOrbitalBody G sunMass centerX centerY screenScale config).x - centerX)
          * (createOrbitalBody G sunMass centerX centerY screenScale config).vx
        + ((createOrbitalBody G sunMass centerX centerY screenScale config).y - centerY)
          * (createOrbitalBody G sunMass centerX centerY screenScale config).vy
        = (config.semiMajorAxis * screenScale * (1 - config.eccentricity))
          * Real.sqrt (G * sunMass *
            (2 / (config.semiMajorAxis * screenScale * (1 - config.eccentricity))
              - 1 / (config.semiMajorAxis * screenScale)))
          * (Real.cos config.startAngle * Real.cos (config.startAngle + Real.pi / 2)
            + Real.sin config.startAngle * Real.sin (config.startAngle + Real.pi / 2)) := by
      show (centerX + config.semiMajorAxis * screenScale * (1 - config.eccentricity)
            * Real.cos config.startAngle - centerX) * (Real.sqrt _ * Real.cos _)
        + (centerY + config.semiMajorAxis * screenScale * (1 - config.eccentricity)
            * Real.sin config.startAngle - centerY) * (Real.sqrt _ * Real.sin _) = _
      ring
    rw [hshape, hcs, mul_zero]

/-- Test configuration for the C5 witness: unit semi-major axis, zero
eccentricity, start angle 0. -/
def cfgTest : OrbitConfig :=
  { name := "P", mass := 1, radius := 1, semiMajorAxis := 1, eccentricity := 0, startAngle := 0 }

/-- C5 witness: the vis-viva speed identity instantiated at `G = 1`,
`sunMass = 1`, unit scale, circular test orbit; the radicand-nonnegativity
hypothesis is discharged numerically. -/
theorem createOrbitalBody_visviva_witness :
    (createOrbitalBody 1 1 0 0 1 cfgTest).vx ^ 2 + (createOrbitalBody 1 1 0 0 1 cfgTest).vy ^ 2
      = 1 * 1 * (2 / (cfgTest.semiMajorAxis * 1 * (1 - cfgTest.eccentricity))
          - 1 / (cfgTest.semiMajorAxis * 1)) :=
  (createOrbitalBody_visviva 1 1 0 0 1 cfgTest (by norm_num [cfgTest])).2.2.1

/-- Embedding of `GravitySystem.gravitationalAcceleration(body, attractor)`
(src/js/GravitySystem.js lines 293-316): `distSq = dx*dx + dy*dy +
softening*softening`, `dist = sqrt(distSq)`, `aMag = GM/distSq`,
components `aMag * (dx/dist)` and `aMag * (dy/dist)`.  The flag
`reactiveSun` stands for the source condition `mode === 'reactive' &&
attractor === sun`, under which GM is additionally multiplied by the bass
multiplier. -/
noncomputable def gravitationalAcceleration (G softeningLength : ℝ)
    (bodyX bodyY attractorX attractorY attractorMass : ℝ)
    (reactiveSun : Bool) (bassMultiplier : ℝ) : ℝ × ℝ :=
  let dx := attractorX - bodyX
  let dy := attractorY - bodyY
  let distSq := dx * dx + dy * dy + softeningLength * softeningLength
  let dist := Real.sqrt distSq
  let GM := if reactiveSun then G * attractorMass * bassMultiplier else G * attractorMass
  let aMag := GM / distSq
  (aMag * (dx / dist), aMag * (dy / dist))

/-- C8: with a positive softening length and nonnegative effective GM, the
softened `distSq` is strictly positive for EVERY pair of positions
(coincident ones included), so no division by zero ever occurs, and the
magnitude of the returned acceleration is at most
`GM / softening²`. -/
theorem gravitationalAcceleration_bounded (G softeningLength : ℝ)
    (bodyX bodyY attractorX attractorY attractorMass : ℝ)
    (reactiveSun : Bool) (bassMultiplier : ℝ)
    (hs : 0 < softeningLength)
    (hGM : 0 ≤ (if reactiveSun then G * attractorMass * bassMultiplier
      else G * attractorMass)) :
    0 < (attractorX - bodyX) * (attractorX - bodyX)
        + (attractorY - bodyY) * (attractorY - bodyY)
        + softeningLength * softeningLength ∧
    Real.sqrt ((gravitationalAcceleration G softeningLength bodyX bodyY
          attractorX attractorY attractorMass reactiveSun bassMultiplier).1 ^ 2
        + (gravitationalAcceleration G softeningLength bodyX bodyY
          attractorX attractorY attractorMass reactiveSun bassMultiplier).2 ^ 2)
      ≤ (if reactiveSun then G * attractorMass * bassMultiplier else G * attractorMass)
        / (softeningLength * softeningLength) := by
  set dx := attractorX - bodyX with hdx
  set dy := attractorY - bodyY with hdy
  set GM := (if reactiveSun then G * attractorMass * bassMultiplier
    else G * attractorMass) with hGMdef
  set D := dx * dx + dy * dy + softeningLength * softeningLength with hD
  have hs2 : 0 < softeningLength * softeningLength := mul_pos hs hs
  have hDpos : 0 < D := by
    have h1 := mul_self_nonneg dx
    have h2 := mul_self_nonneg dy
    rw [hD]; linarith
  have hs2D : softeningLength * softeningLength ≤ D := by
    have h1 := mul_self_nonneg dx
    have h2 := mul_self_nonneg dy
    rw [hD]; linarith
  refine ⟨hDpos, ?_⟩
  have hshape : gravitationalAcceleration G softeningLength bodyX bodyY
      attractorX attractorY attractorMass reactiveSun bassMultiplier
      = (GM / D * (dx / Real.sqrt D), GM / D * (dy / Real.sqrt D)) := rfl
  rw [hshape]
  have hsqrtD : Real.sqrt D * Real.sqrt D = D := Real.mul_self_sqrt hDpos.le
  have hmagsq : (GM / D * (dx / Real.sqrt D)) ^ 2 + (GM / D * (dy / Real.sqrt D)) ^ 2
      = (GM / D) ^ 2 * ((dx * dx + dy * dy) / D) := by
    have hDne : Real.sqrt D ≠ 0 := by
      have := Real.sqrt_pos.mpr hDpos
      exact ne_of_gt this
    field_simp
    rw [mul_pow D (Real.sqrt D), Real.sq_sqrt hDpos.le]
    ring
  have hfrac : (dx * dx + dy * dy) / D ≤ 1 := by
    rw [div_le_one hDpos]
    linarith
  have hfracnn : 0 ≤ (dx * dx + dy * dy) / D := by
    have h1 := mul_self_nonneg dx
    have h2 := mul_self_nonneg dy
    positivity
  have hdivle : GM / D ≤ GM / (softeningLength * softeningLength) := by
    gcongr
  have hdivnn : 0 ≤ GM / D := div_nonneg hGM hDpos.le
  have hbound : (GM / D * (dx / Real.sqrt D)) ^ 2 + (GM / D * (dy / Real.sqrt D)) ^ 2
      ≤ (GM / (softeningLength * softeningLength)) ^ 2 := by
    rw [hmagsq]
    calc (GM / D) ^ 2 * ((dx * dx + dy * dy) / D)
        ≤ (GM / D) ^ 2 * 1 := by
          exact mul_le_mul_of_nonneg_left hfrac (sq_nonneg _)
      _ = (GM / D) ^ 2 := mul_one _
      _ ≤ (GM / (softeningLength * softeningLength)) ^ 2 := by
          exact pow_le_pow_left hdivnn hdivle 2
  calc Real.sqrt ((GM / D * (dx / Real.sqrt D)) ^ 2 + (GM / D * (dy / Real.sqrt D)) ^ 2)
      ≤ Real.sqrt ((GM / (softeningLength * softeningLength)) ^ 2) :=
        Real.sqrt_le_sqrt hbound
    _ = GM / (softeningLength * softeningLength) :=
        Real.sqrt_sq (div_nonneg hGM hs2.le)

/-- C8 witness: the coincident-positions case (`body` exactly on the
attractor) with the default softening length 10, `G = 1000` and the sun's
mass 10000, in non-reactive mode. -/
theorem gravitationalAcceleration_bounded_witness :
    0 < ((0:ℝ) - 0) * ((0:ℝ) - 0) + ((0:ℝ) - 0) * ((0:ℝ) - 0) + (10:ℝ) * 10 ∧
    Real.sqrt ((gravitationalAcceleration 1000 10 0 0 0 0 10000 false 1).1 ^ 2
        + (gravitationalAcceleration 1000 10 0 0 0 0 10000 false 1).2 ^ 2)
      ≤ (if false then (1000:ℝ) * 10000 * 1 else (1000:ℝ) * 10000) / ((10:ℝ) * 10) :=
  gravitationalAcceleration_bounded 1000 10 0 0 0 0 10000 false 1
    (by norm_num) (by norm_num)

/-- The four planet configurations of `GravitySystem.createPlanets`
(src/js/GravitySystem.js lines 71-110). -/
noncomputable def planetConfigs : List OrbitConfig :=
  [ { name := "A", mass := 50, radius := 4, semiMajorAxis := 1/5,
      eccentricity := 1/10, startAngle := 0 },
    { name := "B", mass := 80, radius := 6, semiMajorAxis := 7/20,
      eccentricity := 1/20, startAngle := Real.pi / 4 },
    { name := "C", mass := 100, radius := 7, semiMajorAxis := 1/2,
      eccentricity := 2/25, startAngle := Real.pi / 2 },
    { name := "D", mass := 60, radius := 5, semiMajorAxis := 7/10,
      eccentricity := 3/25, startAngle := 3 * Real.pi / 4 } ]

/-- The collection state of `GravitySystem`: configuration scalars set by
`initialize`, the sun's mass, and the planet and comet lists. -/
structure GravitySystemState where
  G : ℝ
  centerX : ℝ
  centerY : ℝ
  screenScale : ℝ
  sunMass : ℝ
  planets : List (CelestialBody ℝ)
  comets : List (CelestialBody ℝ)

/-- Embedding of `GravitySystem.createPlanets()` (src/js/GravitySystem.js
lines 71-117): for each config, `this.planets.push(createOrbitalBody(config))`
— note it APPENDS to the existing `this.planets` array and never clears it. -/
noncomputable def createPlanets (s : GravitySystemState) : GravitySystemState :=
  let newPlanets := planetConfigs.map
    (fun c => createOrbitalBody s.G s.sunMass s.centerX s.centerY s.screenScale c)
  { s with planets := s.planets ++ newPlanets }

/-- Embedding of `GravitySystem.initialize(centerX, centerY, screenScale)`
(src/js/GravitySystem.js lines 45-69): sets the geometry, creates the sun
(mass 10000), sets `this.planets = []`, runs `createPlanets()`, and clears
the comets. -/
noncomputable def initSystem (G centerX centerY screenScale : ℝ) : GravitySystemState :=
  createPlanets
    { G := G
      centerX := centerX
      centerY := centerY
      screenScale := screenScale
      sunMass := 10000
      planets := []
      comets := [] }

/-- Embedding of `GravitySystem.reset()` (src/js/GravitySystem.js lines
377-384): clears the comets, empties each existing planet's trail, and
calls `createPlanets()` again — WITHOUT first resetting `this.planets` to
`[]` (unlike `initialize`). -/
noncomputable def reset (s : GravitySystemState) : GravitySystemState :=
  let cleared := s.planets.map (fun p => { p with trail := ([] : List (ℝ × ℝ)) })
  createPlanets { s with
    comets := []
    planets := cleared }

/-- C6 failing-input evaluation: right after `initialize` the system holds
4 planets; one call to `reset()` leaves the comet list empty but GROWS the
planet list to 8 — the four stale bodies followed by four freshly created
ones — because `createPlanets()` appends without clearing.  The planet
collection after `reset()` is therefore not the original fixed set of
planets. -/
theorem reset_duplicates_planets :
    (initSystem 1000 0 0 1).planets.length = 4 ∧
    (reset (initSystem 1000 0 0 1)).planets.length = 8 ∧
    (reset (initSystem 1000 0 0 1)).comets = [] := by
  refine ⟨?_, ?_, rfl⟩ <;>
    simp [reset, initSystem, createPlanets, planetConfigs]
